import Mathlib

/-!
Verification of the dataflow-cpp core (df.h) against its specification.

The C++ header is embedded shallowly.  Every `Output` owns one value
cell at a stable address, and every `Input` owns a private default cell
plus a pointer to the cell it currently reads.  We model the addressable
cells as a store `Nat → T` indexed by cell identifiers: an `Output` is
the identifier of the cell it owns, an `Input` records the identifier of
its private default cell and the identifier of the cell its
`m_pConnectedValue` pointer currently designates.  Node subclasses of
`df::Node` that the claims mention become constructors of an inductive
type carrying their port wiring; `evaluate` becomes a store transformer,
and `Graph::evaluate` a left fold over the registered nodes in
registration order, exactly as the `for` loop in the source.  The C++
`double` time step and the numeric payload type `T` are idealised as
exact arithmetic (`ℚ`, or any type with the needed operations).
-/

namespace df

/-- The addressable value cells: one value of type `T` per cell id. -/
def Store (T : Type) : Type := Nat → T

/-- Writing a cell: `s.update c v` stores `v` at cell `c`. -/
def Store.update {T : Type} (s : Store T) (c : Nat) (v : T) : Store T :=
  fun d => if d = c then v else s d

/-- Input port (`df::Input<T>`): it owns a private default cell
(`m_defaultValue`) and reads through `m_pConnectedValue`, which points
either at the default cell or at some output's cell. -/
structure Input where
  defaultCell : Nat
  boundCell : Nat
deriving DecidableEq, Repr

/-- The `Input()` constructor: `m_defaultValue()` value-initialises the
fresh default cell `c` and `m_pConnectedValue(&m_defaultValue)` binds
the input to it. -/
def Input.construct {T : Type} [Zero T] (c : Nat) (s : Store T) :
    Input × Store T :=
  (⟨c, c⟩, s.update c 0)

/-- `Input::value()`: dereference `m_pConnectedValue`. -/
def Input.value {T : Type} (i : Input) (s : Store T) : T :=
  s i.boundCell

/-- `Input::connect(T *pValue)`: repoint `m_pConnectedValue`. -/
def Input.connect (i : Input) (c : Nat) : Input :=
  ⟨i.defaultCell, c⟩

/-- `Input::disconnect()`: repoint `m_pConnectedValue` back at
`m_defaultValue`. -/
def Input.disconnect (i : Input) : Input :=
  ⟨i.defaultCell, i.defaultCell⟩

/-- `Input::operator=(const T&)`: `*m_pConnectedValue = value` — the
assignment writes through the currently bound cell. -/
def Input.assign {T : Type} (i : Input) (v : T) (s : Store T) : Store T :=
  s.update i.boundCell v

/-- Output port (`df::Output<T>`): it owns the cell holding `m_value`. -/
structure Output where
  cell : Nat
deriving DecidableEq, Repr

/-- The `Output()` constructor: `m_value()` value-initialises the
fresh cell `c` owned by the output. -/
def Output.construct {T : Type} [Zero T] (c : Nat) (s : Store T) :
    Output × Store T :=
  (⟨c⟩, s.update c 0)

/-- `Output::value()`: read `m_value`. -/
def Output.value {T : Type} (o : Output) (s : Store T) : T :=
  s o.cell

/-- `Output::connect(Input<T>&)`: `input.connect(&m_value)`. -/
def Output.connect (o : Output) (i : Input) : Input :=
  i.connect o.cell

/-- `Output::operator=(const T&)`: `m_value = value`. -/
def Output.assign {T : Type} (o : Output) (v : T) (s : Store T) : Store T :=
  s.update o.cell v

/-- The instantiable node subclasses, with their port wiring.
`variable` is `df::node::Variable` (inherits the base class's no-op
`evaluate`); the binary arithmetic nodes carry their two input ports
and single output port.  `df::node::WhiteNoise` is omitted: no claim
mentions it and its behaviour is a host-library pseudorandom stream.
`df::node::Neg` is also omitted, because it is not instantiable:
its `evaluate` (df.h:321) qualifies `firstInput()` with
`Inputs<T, T>`, which is not a base of `Neg` (the class derives only
`Inputs<T>`, df.h:309-311), so every instantiation of `Neg<T>` is
ill-formed and no realizable graph contains a `Neg` node. -/
inductive Node where
  | variable (out : Output)
  | add (i0 i1 : Input) (out : Output)
  | sub (i0 i1 : Input) (out : Output)
  | mul (i0 i1 : Input) (out : Output)
  | div (i0 i1 : Input) (out : Output)
deriving DecidableEq, Repr

/-- The `evaluate()` override of each instantiable node kind, as
written in df.h: each binary arithmetic node assigns to its first
output the operation applied to its current input values; `Variable`
keeps the base class's empty `evaluate`. -/
def Node.evaluate {T : Type} [Add T] [Sub T] [Mul T] [Div T] :
    Node → Store T → Store T
  | Node.variable _, s => s
  | Node.add i0 i1 out, s => out.assign (i0.value s + i1.value s) s
  | Node.sub i0 i1 out, s => out.assign (i0.value s - i1.value s) s
  | Node.mul i0 i1 out, s => out.assign (i0.value s * i1.value s) s
  | Node.div i0 i1 out, s => out.assign (i0.value s / i1.value s) s

/-- `df::Graph`: the registered nodes in registration order
(`m_nodes`) and the scalar `m_evaluationTimeStep` (a C++ `double`,
idealised as `ℚ`). -/
structure Graph where
  m_nodes : List Node
  m_evaluationTimeStep : ℚ
deriving DecidableEq, Repr

/-- `Graph()`: empty node list, `m_evaluationTimeStep(1e-6)`. -/
def Graph.construct : Graph :=
  ⟨[], 1 / 1000000⟩

/-- `Graph::timeStep() const`. -/
def Graph.timeStepGet (g : Graph) : ℚ :=
  g.m_evaluationTimeStep

/-- `Graph::timeStep(double dt)`. -/
def Graph.timeStepSet (g : Graph) (dt : ℚ) : Graph :=
  ⟨g.m_nodes, dt⟩

/-- `Graph::sampleRate() const`: `1.0 / m_evaluationTimeStep`. -/
def Graph.sampleRateGet (g : Graph) : ℚ :=
  1 / g.m_evaluationTimeStep

/-- `Graph::sampleRate(double sr)`: `m_evaluationTimeStep = 1.0 / sr`. -/
def Graph.sampleRateSet (g : Graph) (sr : ℚ) : Graph :=
  ⟨g.m_nodes, 1 / sr⟩

/-- `Graph::registerNode`: `m_nodes.push_back(node)`. -/
def Graph.registerNode (g : Graph) (n : Node) : Graph :=
  ⟨g.m_nodes ++ [n], g.m_evaluationTimeStep⟩

/-- `Graph::evaluate()`: `for (auto &n : m_nodes) n->evaluate();` —
one linear pass over the registered nodes in registration order. -/
def Graph.evaluate {T : Type} [Add T] [Sub T] [Mul T] [Div T]
    (g : Graph) (s : Store T) : Store T :=
  g.m_nodes.foldl (fun st n => Node.evaluate n st) s

/-!
The two example graphs the claims reference, with a fixed cell layout.
Cell identifiers are allocated left to right in construction order;
each input port records its private default cell and the cell it ends
up bound to after the example's wiring ran.
-/

/-- The graph of src/examples/simple1.cpp: Variables `a = 1`, `b = 2`,
`c = 3` on cells 0, 1, 2; an `Add` node with default cells 3, 4,
inputs wired to `a` and `b`, output cell 5; a `Mul` node with default
cells 6, 7, inputs wired to the `Add` output and `c`, output cell 8.
The example never sets the time step, so it keeps the constructor's
value. -/
def simple1Graph : Graph :=
  ⟨[Node.variable ⟨0⟩,
    Node.variable ⟨1⟩,
    Node.variable ⟨2⟩,
    Node.add ⟨3, 0⟩ ⟨4, 1⟩ ⟨5⟩,
    Node.mul ⟨6, 5⟩ ⟨7, 2⟩ ⟨8⟩],
   Graph.construct.m_evaluationTimeStep⟩

/-- The store of src/examples/simple1.cpp just before `g.evaluate()`:
the three variable outputs hold 1, 2, 3, every other cell is still
value-initialised to zero. -/
def simple1Init : Store ℚ :=
  fun c => if c = 0 then 1 else if c = 1 then 2 else if c = 2 then 3 else 0

/-- The graph of src/examples/sin_cos_generator.cpp: the `dt` variable
on cell 0; `csub` with default cells 1, 2 and output cell 3; `cmul`
with default cells 4, 5 and output cell 6; `sadd` with default cells
7, 8 and output cell 9; `smul` with default cells 10, 11 and output
cell 12.  The example's wiring binds `csub.in0` to `csub.out` (cell 3),
`cmul.in0` to `csub.out`, `cmul.in1` to `dt` (cell 0), `csub.in1` to
`smul.out` (cell 12), `sadd.in0` to `sadd.out` (cell 9), `smul.in0` to
`sadd.out`, `smul.in1` to `dt`, and `sadd.in1` to `cmul.out`
(cell 6). -/
def sinCosGraph (dt : ℚ) : Graph :=
  ⟨[Node.variable ⟨0⟩,
    Node.sub ⟨1, 3⟩ ⟨2, 12⟩ ⟨3⟩,
    Node.mul ⟨4, 3⟩ ⟨5, 0⟩ ⟨6⟩,
    Node.add ⟨7, 9⟩ ⟨8, 6⟩ ⟨9⟩,
    Node.mul ⟨10, 9⟩ ⟨11, 0⟩ ⟨12⟩],
   dt⟩

/-- The store of src/examples/sin_cos_generator.cpp just before the
first `g.evaluate()`: the `dt` variable holds the time step, the seeds
`output_cos = 1.0f` and `output_sin = 0.0f` are in the `csub` and
`sadd` output cells, every other cell is still value-initialised to
zero. -/
def sinCosInit (dt : ℚ) : Store ℚ :=
  fun c => if c = 0 then dt else if c = 3 then 1 else 0

/-!
Helper lemmas about the store.
-/

theorem Store.update_same {T : Type} (s : Store T) (c : Nat) (v : T) :
    Store.update s c v c = v := by
  simp [Store.update]

theorem Store.update_other {T : Type} (s : Store T) (c d : Nat) (v : T)
    (h : d ≠ c) : Store.update s c v d = s d := by
  simp [Store.update, h]

/-- Claim C4: fan-out — once an output `o` has been connected to inputs
`i1` and `i2`, in every store both inputs read exactly `o`'s stored
value, and after assigning `v` to `o` both inputs (and `o` itself)
immediately read `v`, with no buffering. -/
theorem C4_fanout {T : Type} (o : Output) (i1 i2 : Input) (s : Store T)
    (v : T) :
    Input.value (Output.connect o i1) s = Output.value o s ∧
    Input.value (Output.connect o i2) s = Output.value o s ∧
    Input.value (Output.connect o i1) (Output.assign o v s) = v ∧
    Input.value (Output.connect o i2) (Output.assign o v s) = v ∧
    Output.value o (Output.assign o v s) = v := by
  simp [Input.value, Output.value, Output.connect, Input.connect,
    Output.assign, Store.update]

/-- Claim C5: rebind semantics — connecting an already-connected input
to a different output fully replaces the binding (reads follow only the
new output, and assignments to the old output no longer reach the
input), and after `disconnect` the input reads its private default
cell, unaffected by assignments to the output it was bound to. -/
theorem C5_rebind {T : Type} (i : Input) (o1 o2 : Output) (s : Store T)
    (v : T) (h1 : o1.cell ≠ o2.cell) (h2 : o1.cell ≠ i.defaultCell) :
    Input.value (Output.connect o2 (Output.connect o1 i)) s
      = Output.value o2 s ∧
    Input.value (Output.connect o2 (Output.connect o1 i))
      (Output.assign o1 v s) = Output.value o2 s ∧
    Input.disconnect (Output.connect o1 i) = Input.disconnect i ∧
    Input.value (Input.disconnect (Output.connect o1 i)) s
      = s i.defaultCell ∧
    Input.value (Input.disconnect (Output.connect o1 i))
      (Output.assign o1 v s) = s i.defaultCell := by
  simp [Input.value, Output.value, Output.connect, Input.connect,
    Input.disconnect, Output.assign, Store.update, Ne.symm h1, Ne.symm h2]

/-- Concrete instance of C5_rebind: input with default cell 0,
reconnected from the output on cell 1 to the output on cell 2, over the
all-zero integer store. -/
theorem C5_rebind_witness :
    Input.value (Output.connect ⟨2⟩ (Output.connect ⟨1⟩ ⟨0, 0⟩))
      ((fun _ => 0) : Store ℤ) = Output.value ⟨2⟩ ((fun _ => 0) : Store ℤ) :=
  (C5_rebind ⟨0, 0⟩ ⟨1⟩ ⟨2⟩ ((fun _ => 0) : Store ℤ) 7
    (by decide) (by decide)).1

/-- Claim C8: default isolation — a freshly constructed input reads the
zero value of its type; after assigning `v` to it while unconnected it
reads `v`; and a write to any other cell `d` leaves its read at
zero. -/
theorem C8_default_isolation {T : Type} [Zero T] (c d : Nat)
    (s : Store T) (v w : T) (h : d ≠ c) :
    Input.value (Input.construct c s).1 (Input.construct c s).2 = 0 ∧
    Input.value (Input.construct c s).1
      (Input.assign (Input.construct c s).1 v (Input.construct c s).2) = v ∧
    Input.value (Input.construct c s).1
      (Store.update (Input.construct c s).2 d w) = 0 := by
  simp [Input.value, Input.construct, Input.assign, Store.update,
    Ne.symm h]

/-- Concrete instance of C8_default_isolation: the input constructed on
cell 0, observed against a write to cell 1, over the all-zero integer
store. -/
theorem C8_default_isolation_witness :
    Input.value (Input.construct 0 ((fun _ => 0) : Store ℤ)).1
      (Input.construct 0 ((fun _ => 0) : Store ℤ)).2 = 0 :=
  (C8_default_isolation 0 1 ((fun _ => 0) : Store ℤ) 5 7 (by decide)).1

/-- Claim C1: `Graph::evaluate` runs each registered node once, in
registration order.  For two registered nodes the pass is literally the
second node's evaluate composed after the first's.  Consequently, with
adder nodes A on output cell `a` and B on output cell `b`: when B's
first input has been connected to A's output (A registered first), B's
output ends at the value A just produced this tick plus B's other
input, read from the pre-pass store; when A's first input has been
connected to B's output (B registered second), A's output ends at the
sum over `b`'s pre-tick value, i.e. the value B produced in the
previous tick. -/
theorem C1_registration_order {T : Type} [Add T] [Sub T] [Mul T]
    [Div T] (iA0 iA1 iB0 iB1 : Input) (a b : Nat) (dt : ℚ)
    (s : Store T) (h : a ≠ b) (hB1 : iB1.boundCell ≠ a) :
    (∀ A B : Node,
      Graph.evaluate ⟨[A, B], dt⟩ s = Node.evaluate B (Node.evaluate A s)) ∧
    Graph.evaluate
      ⟨[Node.add iA0 iA1 ⟨a⟩,
        Node.add (Output.connect ⟨a⟩ iB0) iB1 ⟨b⟩], dt⟩ s b
      = (Input.value iA0 s + Input.value iA1 s) + Input.value iB1 s ∧
    Graph.evaluate
      ⟨[Node.add (Output.connect ⟨b⟩ iA0) iA1 ⟨a⟩,
        Node.add iB0 iB1 ⟨b⟩], dt⟩ s a
      = Output.value ⟨b⟩ s + Input.value iA1 s := by
  refine ⟨fun A B => rfl, ?_, ?_⟩ <;>
    simp [Graph.evaluate, Node.evaluate, Output.assign, Output.value,
      Output.connect, Input.value, Input.connect, Store.update, h, hB1]

/-- Concrete instance of C1_registration_order: the one-tick-delay
direction on integer output cells 4 and 5 over the all-zero store. -/
theorem C1_registration_order_witness :
    Graph.evaluate
      ⟨[Node.add (Output.connect ⟨5⟩ ⟨0, 0⟩) ⟨1, 1⟩ ⟨4⟩,
        Node.add ⟨2, 2⟩ ⟨3, 3⟩ ⟨5⟩], 1⟩
      ((fun _ => 0) : Store ℤ) 4
      = Output.value ⟨5⟩ ((fun _ => 0) : Store ℤ)
        + Input.value ⟨1, 1⟩ ((fun _ => 0) : Store ℤ) :=
  (C1_registration_order ⟨0, 0⟩ ⟨1, 1⟩ ⟨2, 2⟩ ⟨3, 3⟩ 4 5 1
    ((fun _ => 0) : Store ℤ) (by decide) (by decide)).2.2

/-- Claim C2 is false on the code: `Input::operator=` writes through
`m_pConnectedValue`, so assigning to a connected input does change the
connected output's stored value.  Here the output on cell 0 holds 0,
an input is connected to it, 5 is assigned to the input, and the
output's stored value becomes 5. -/
theorem C2_counterexample :
    ¬ (Output.value ⟨0⟩
        (Input.assign (Output.connect ⟨0⟩ ⟨1, 1⟩) 5 ((fun _ => 0) : Store ℤ))
        = Output.value ⟨0⟩ ((fun _ => 0) : Store ℤ)) := by
  decide

/-- Claim C2 (amended): assigning `v` to an input writes exactly its
currently bound cell — the connected output's cell when connected
(so the output's stored value becomes `v`), otherwise only the input's
private default cell; every other cell, in particular every output an
unconnected input is not bound to, is unchanged. -/
theorem C2_amended {T : Type} (i : Input) (v : T) (s : Store T)
    (o : Output) (c : Nat) :
    (Output.value o (Input.assign i v s)
      = if i.boundCell = o.cell then v else Output.value o s) ∧
    (c ≠ i.boundCell → Input.assign i v s c = s c) ∧
    (i.boundCell = i.defaultCell → i.defaultCell ≠ o.cell →
      Output.value o (Input.assign i v s) = Output.value o s) := by
  refine ⟨?_, fun hc => ?_, fun hd ho => ?_⟩
  · by_cases hbc : i.boundCell = o.cell
    · simp [Output.value, Input.assign, Store.update, hbc]
    · simp [Output.value, Input.assign, Store.update, hbc, Ne.symm hbc]
  · simp [Input.assign, Store.update, hc]
  · simp [Output.value, Input.assign, Store.update, hd, Ne.symm ho]

/-- Concrete instance of C2_amended: assigning 5 to the unconnected
input on default cell 1 leaves cell 0 unchanged in the all-zero
integer store. -/
theorem C2_amended_witness :
    Input.assign (⟨1, 1⟩ : Input) (5 : ℤ) ((fun _ => 0) : Store ℤ) 0
      = ((fun _ => 0) : Store ℤ) 0 :=
  (C2_amended ⟨1, 1⟩ 5 ((fun _ => 0) : Store ℤ) ⟨0⟩ 0).2.1 (by decide)

/-- Claim C3, the part the program can realize: one `evaluate` of each
binary arithmetic node writes to its output cell exactly the native
operation of `T` on its current input values — sum, difference,
product, unguarded quotient — for every type with the operations; at
the claim's example operands this gives Add(2,3) = 5, Sub(5,2) = 3,
Mul(3,4) = 12 and Div(10,2) = 5 over the integers, and Add(2,3) = 5
and Div(10,2) = 5 over the (idealised floating-point) rationals.  The
claim's `Neg` part has no realizable counterpart: every instantiation
of `df::node::Neg` is ill-formed (see the `Node` doc comment), which
is the code bug recorded for this claim. -/
theorem C3_arithmetic :
    (∀ (T : Type) [Add T] [Sub T] [Mul T] [Div T]
      (i0 i1 : Input) (out : Output) (s : Store T),
      Node.evaluate (Node.add i0 i1 out) s out.cell
        = Input.value i0 s + Input.value i1 s ∧
      Node.evaluate (Node.sub i0 i1 out) s out.cell
        = Input.value i0 s - Input.value i1 s ∧
      Node.evaluate (Node.mul i0 i1 out) s out.cell
        = Input.value i0 s * Input.value i1 s ∧
      Node.evaluate (Node.div i0 i1 out) s out.cell
        = Input.value i0 s / Input.value i1 s) ∧
    Node.evaluate (Node.add ⟨3, 0⟩ ⟨4, 1⟩ ⟨2⟩)
      ((fun c => if c = 0 then 2 else if c = 1 then 3 else 0) : Store ℤ) 2
      = 5 ∧
    Node.evaluate (Node.sub ⟨3, 0⟩ ⟨4, 1⟩ ⟨2⟩)
      ((fun c => if c = 0 then 5 else if c = 1 then 2 else 0) : Store ℤ) 2
      = 3 ∧
    Node.evaluate (Node.mul ⟨3, 0⟩ ⟨4, 1⟩ ⟨2⟩)
      ((fun c => if c = 0 then 3 else if c = 1 then 4 else 0) : Store ℤ) 2
      = 12 ∧
    Node.evaluate (Node.div ⟨3, 0⟩ ⟨4, 1⟩ ⟨2⟩)
      ((fun c => if c = 0 then 10 else if c = 1 then 2 else 0) : Store ℤ) 2
      = 5 ∧
    Node.evaluate (Node.add ⟨3, 0⟩ ⟨4, 1⟩ ⟨2⟩)
      ((fun c => if c = 0 then 2 else if c = 1 then 3 else 0) : Store ℚ) 2
      = 5 ∧
    Node.evaluate (Node.div ⟨3, 0⟩ ⟨4, 1⟩ ⟨2⟩)
      ((fun c => if c = 0 then 10 else if c = 1 then 2 else 0) : Store ℚ) 2
      = 5 := by
  refine ⟨?_, ?_, ?_, ?_, ?_, ?_, ?_⟩
  · intro T _ _ _ _ i0 i1 out s
    simp [Node.evaluate, Output.assign, Store.update]
  · decide
  · decide
  · decide
  · decide
  · norm_num [Node.evaluate, Output.assign, Input.value, Store.update]
  · norm_num [Node.evaluate, Output.assign, Input.value, Store.update]

/-- Claim C6: one `Graph::evaluate` of the sin/cos generator graph,
seeded with cos = 1, sin = 0 and the multiplier outputs at zero,
leaves the cos output at cos − sin·dt = 1 − 0·dt and the sin output at
sin + cos·dt = 0 + 1·dt, for every time step dt. -/
theorem C6_sincos_step (dt : ℚ) :
    Output.value ⟨3⟩ (Graph.evaluate (sinCosGraph dt) (sinCosInit dt))
      = 1 - 0 * dt ∧
    Output.value ⟨9⟩ (Graph.evaluate (sinCosGraph dt) (sinCosInit dt))
      = 0 + 1 * dt := by
  constructor <;>
    simp [sinCosGraph, sinCosInit, Graph.evaluate, Node.evaluate,
      Output.assign, Output.value, Input.value, Store.update,
      List.foldl]

/-- Claim C7: one `Graph::evaluate` of the (a + b) * c example graph
with a = 1, b = 2, c = 3 leaves the multiplier output at 9. -/
theorem C7_simple1 :
    Output.value ⟨8⟩ (Graph.evaluate simple1Graph simple1Init) = 9 := by
  norm_num [simple1Graph, simple1Init, Graph.evaluate, Node.evaluate,
    Output.assign, Output.value, Input.value, Store.update, List.foldl]

/-- Claim C9: `timeStep` and `sampleRate` are reciprocal views of the
single scalar `m_evaluationTimeStep`: the sample-rate getter returns
the reciprocal of the time-step getter; after `timeStep(dt)` the
getters return `dt` and `1/dt`; after `sampleRate(sr)` the stored
scalar is `1/sr`, so the getter returns `1/(1/sr)`; and registering a
node leaves the scalar unchanged. -/
theorem C9_timestep_samplerate (g : Graph) (dt sr : ℚ) (n : Node) :
    Graph.sampleRateGet g = 1 / Graph.timeStepGet g ∧
    Graph.timeStepGet (Graph.timeStepSet g dt) = dt ∧
    Graph.sampleRateGet (Graph.timeStepSet g dt) = 1 / dt ∧
    (Graph.sampleRateSet g sr).m_evaluationTimeStep = 1 / sr ∧
    Graph.sampleRateGet (Graph.sampleRateSet g sr) = 1 / (1 / sr) ∧
    (Graph.registerNode g n).m_evaluationTimeStep
      = g.m_evaluationTimeStep :=
  ⟨rfl, rfl, rfl, rfl, rfl, rfl⟩

/-- Claim C10: a freshly constructed graph has time step `1e-6`
(idealised as the exact rational `1/1000000`), equivalently sample rate
`1e6`, before any setter call. -/
theorem C10_default_timestep :
    Graph.timeStepGet Graph.construct = 1 / 1000000 ∧
    Graph.sampleRateGet Graph.construct = 1000000 := by
  constructor
  · rfl
  · norm_num [Graph.sampleRateGet, Graph.construct]

end df
